import Mathlib

/-!
Verification of the SELECT-statement representation and renderer
(`src/select.rs` of rust-cql3-parser).

The external collaborator types (`Identifier`, `FQName`, `RelationElement`,
`OrderClause`) are opaque to this module: each carries its own textual
rendering, modelled here as a wrapped string rendered as itself.
-/

namespace CqlSelect

/-- Opaque validated identifier; rendering is its own text. -/
structure Identifier where
  text : String
deriving DecidableEq, Repr

def Identifier.render (i : Identifier) : String := i.text

/-- Opaque fully-qualified table name; rendering is its own text. -/
structure FQName where
  text : String
deriving DecidableEq, Repr

def FQName.render (t : FQName) : String := t.text

/-- Opaque WHERE-clause predicate term; rendering is its own text. -/
structure RelationElement where
  text : String
deriving DecidableEq, Repr

def RelationElement.render (r : RelationElement) : String := r.text

/-- Opaque ORDER BY clause; rendering is its own text. -/
structure OrderClause where
  text : String
deriving DecidableEq, Repr

def OrderClause.render (o : OrderClause) : String := o.text

/-- A base name with an optional alias (`struct Named`). -/
structure Named where
  name : Identifier
  «alias» : Option Identifier
deriving DecidableEq, Repr

/-- `impl Display for Named`: `name` alone, or `name AS alias`. -/
def Named.render (n : Named) : String :=
  match n.«alias» with
  | none => n.name.render
  | some a => n.name.render ++ " AS " ++ a.render

/-- `Named::alias_or_name`: the alias when present, else the base name. -/
def Named.alias_or_name (n : Named) : Identifier :=
  match n.«alias» with
  | none => n.name
  | some a => a

/-- `enum SelectElement`: wildcard, column, or function projection. -/
inductive SelectElement where
  | Star : SelectElement
  | Column : Named → SelectElement
  | Function : Named → SelectElement
deriving DecidableEq, Repr

/-- `impl Display for SelectElement`: `*` for `Star`, the `Named`
rendering for both `Column` and `Function`. -/
def SelectElement.render : SelectElement → String
  | SelectElement.Star => "*"
  | SelectElement.Column n => n.render
  | SelectElement.Function n => n.render

/-- `struct Select`: the aggregate SELECT statement. -/
structure Select where
  distinct : Bool
  json : Bool
  table_name : FQName
  columns : List SelectElement
  where_clause : List RelationElement
  order : Option OrderClause
  limit : Option Int
  filtering : Bool
deriving DecidableEq, Repr

/-- `Select::select_names`: for each `Column` element keep
`named.to_string()` (the full `Named` rendering); skip `Star` and
`Function`. -/
def Select.select_names (s : Select) : List String :=
  s.columns.filterMap fun e =>
    match e with
    | SelectElement.Column named => some named.render
    | _ => none

/-- `Select::select_alias`: for each `Column` element keep
the alias cloned, or the base name when there is no alias; skip `Star`
and `Function`. -/
def Select.select_alias (s : Select) : List Identifier :=
  s.columns.filterMap fun e =>
    match e with
    | SelectElement.Column named => some (named.«alias».getD named.name)
    | _ => none

/-- itertools `Iterator::join(sep)`: empty input gives the empty string;
otherwise the first element followed by `sep ++ element` folded over the
rest. -/
def joinIter (sep : String) : List String → String
  | [] => ""
  | first :: rest => rest.foldl (fun acc x => acc ++ sep ++ x) first

/-- `impl Display for Select`: the `write!` format string
`"SELECT {}{}{} FROM {}{}{}{}{}"` with its eight arguments. -/
def Select.render (s : Select) : String :=
  "SELECT " ++
  (if s.distinct then "DISTINCT " else "") ++
  (if s.json then "JSON " else "") ++
  joinIter ", " (s.columns.map SelectElement.render) ++
  " FROM " ++ s.table_name.render ++
  (if s.where_clause.isEmpty then ""
   else " WHERE " ++ joinIter " AND " (s.where_clause.map RelationElement.render)) ++
  (match s.order with
   | none => ""
   | some x => " ORDER BY " ++ x.render) ++
  (match s.limit with
   | none => ""
   | some x => " LIMIT " ++ toString x) ++
  (if s.filtering then " ALLOW FILTERING" else "")

/-- Spec-side separator join, written from the spec's words: elements
joined by the separator placed between consecutive entries. -/
def joinSep (sep : String) : List String → String
  | [] => ""
  | [x] => x
  | x :: y :: rest => x ++ sep ++ joinSep sep (y :: rest)

/-- Tail of a separated join: `sep ++ x` for each remaining element. -/
def joinTail (sep : String) : List String → String
  | [] => ""
  | x :: xs => sep ++ x ++ joinTail sep xs

lemma foldl_append_joinTail (sep : String) :
    ∀ (l : List String) (acc : String),
      l.foldl (fun a x => a ++ sep ++ x) acc = acc ++ joinTail sep l := by
  intro l
  induction l with
  | nil => intro acc; simp [joinTail]
  | cons x xs ih =>
      intro acc
      rw [List.foldl_cons, ih]
      simp [joinTail, String.append_assoc]

lemma joinSep_cons (sep x : String) (xs : List String) :
    joinSep sep (x :: xs) = x ++ joinTail sep xs := by
  induction xs generalizing x with
  | nil => simp [joinSep, joinTail]
  | cons y ys ih =>
      simp [joinSep, joinTail, ih y, String.append_assoc]

/-- The spec's separator join and the itertools-style join agree. -/
lemma joinSep_eq_joinIter (sep : String) (l : List String) :
    joinSep sep l = joinIter sep l := by
  cases l with
  | nil => rfl
  | cons x xs =>
      rw [joinSep_cons, joinIter, foldl_append_joinTail]

/-- Does a `SelectElement` use the `Column` variant? -/
def isColumn : SelectElement → Bool
  | SelectElement.Column _ => true
  | _ => false

/-- The `Named` payloads of the `Column` elements, in list order. -/
def columnPayloads : List SelectElement → List Named
  | [] => []
  | SelectElement.Column n :: rest => n :: columnPayloads rest
  | SelectElement.Star :: rest => columnPayloads rest
  | SelectElement.Function _ :: rest => columnPayloads rest

lemma filterMap_render_eq_payloads (l : List SelectElement) :
    (l.filterMap fun e =>
      match e with
      | SelectElement.Column named => some named.render
      | _ => none) = (columnPayloads l).map Named.render := by
  induction l with
  | nil => rfl
  | cons e rest ih => cases e <;> simp [columnPayloads, List.filterMap_cons, ih]

lemma filterMap_alias_eq_payloads (l : List SelectElement) :
    (l.filterMap fun e =>
      match e with
      | SelectElement.Column named => some (named.«alias».getD named.name)
      | _ => none) = (columnPayloads l).map Named.alias_or_name := by
  induction l with
  | nil => rfl
  | cons e rest ih =>
      cases e with
      | Star => simp [columnPayloads, List.filterMap_cons, ih]
      | Function n => simp [columnPayloads, List.filterMap_cons, ih]
      | Column n =>
          simp [columnPayloads, List.filterMap_cons, ih, Named.alias_or_name]
          cases n.«alias» <;> simp [Option.getD, Named.alias_or_name]

lemma columnPayloads_length (l : List SelectElement) :
    (columnPayloads l).length = l.countP isColumn := by
  induction l with
  | nil => rfl
  | cons e rest ih => cases e <;> simp [columnPayloads, isColumn, List.countP_cons, ih]

/-- Table name used by the concrete scenarios. -/
def tTable : FQName := ⟨"t"⟩

/-- `Named{name:"a", alias:Some("b")}`. -/
def namedAB : Named := ⟨⟨"a"⟩, some ⟨"b"⟩⟩

/-- `Named{name:"count(*)", alias:None}`. -/
def namedCount : Named := ⟨⟨"count(*)"⟩, none⟩

/-- Scenario 3 of the spec: aliased column plus function, one WHERE term,
ALLOW FILTERING set. -/
def s3 : Select :=
  ⟨false, false, tTable,
   [SelectElement.Column namedAB, SelectElement.Function namedCount],
   [⟨"x = 1"⟩], none, none, true⟩

/-- Scenario 2 of the spec: DISTINCT, one plain column, LIMIT 5. -/
def s2 : Select :=
  ⟨true, false, tTable, [SelectElement.Column ⟨⟨"a"⟩, none⟩], [], none, some 5, false⟩

/-- A select with an empty column list and all options absent. -/
def sEmpty : Select := ⟨false, false, tTable, [], [], none, none, false⟩

/-- A DISTINCT select with an empty column list. -/
def sDistinctEmpty : Select := ⟨true, false, tTable, [], [], none, none, false⟩

example : s3.render = "SELECT a AS b, count(*) FROM t WHERE x = 1 ALLOW FILTERING" := by rfl

example : s2.render = "SELECT DISTINCT a FROM t LIMIT 5" := by rfl

example : sEmpty.render = "SELECT  FROM t" := by rfl

example : s3.select_names = ["a AS b"] := by rfl

example : s3.select_alias = [⟨"b"⟩] := by rfl

/-- Spec-side segment: `DISTINCT ` iff `distinct`. -/
def distinctSeg (s : Select) : String :=
  if s.distinct then "DISTINCT " else ""

/-- Spec-side segment: `JSON ` iff `json`. -/
def jsonSeg (s : Select) : String :=
  if s.json then "JSON " else ""

/-- Spec-side segment: ` WHERE ` plus the terms joined by ` AND `, iff the
where clause is non-empty. -/
def whereSeg (s : Select) : String :=
  if s.where_clause = [] then ""
  else " WHERE " ++ joinSep " AND " (s.where_clause.map RelationElement.render)

/-- Spec-side segment: ` ORDER BY ` plus the order clause, iff present. -/
def orderSeg (s : Select) : String :=
  match s.order with
  | none => ""
  | some x => " ORDER BY " ++ x.render

/-- Spec-side segment: ` LIMIT ` plus the integer, iff present. -/
def limitSeg (s : Select) : String :=
  match s.limit with
  | none => ""
  | some x => " LIMIT " ++ toString x

/-- Spec-side segment: ` ALLOW FILTERING` iff `filtering`. -/
def filteringSeg (s : Select) : String :=
  if s.filtering then " ALLOW FILTERING" else ""

/-- The clause-head text of a rendered select: `SELECT ` with the
optional `DISTINCT ` and `JSON ` markers. Every form of it ends in a
space. -/
def clauseHead (s : Select) : String :=
  "SELECT " ++ distinctSeg s ++ jsonSeg s

/-- Spec-side renderer, assembled from the spec's clause-by-clause
description in its fixed order. -/
def renderSpec (s : Select) : String :=
  "SELECT " ++ distinctSeg s ++ jsonSeg s ++
  joinSep ", " (s.columns.map SelectElement.render) ++
  " FROM " ++ s.table_name.render ++
  whereSeg s ++ orderSeg s ++ limitSeg s ++ filteringSeg s

/-- The source renderer agrees with the spec-side renderer on every
`Select`, empty column list included. -/
lemma render_eq_renderSpec (s : Select) : s.render = renderSpec s := by
  unfold Select.render renderSpec distinctSeg jsonSeg whereSeg orderSeg limitSeg filteringSeg
  simp only [← joinSep_eq_joinIter]
  cases hw : s.where_clause with
  | nil => simp
  | cons a l => simp

lemma select_names_eq (s : Select) :
    s.select_names = (columnPayloads s.columns).map Named.render :=
  filterMap_render_eq_payloads s.columns

lemma select_alias_eq (s : Select) :
    s.select_alias = (columnPayloads s.columns).map Named.alias_or_name :=
  filterMap_alias_eq_payloads s.columns

/-- C1 (counterexample): on the columns list
`[Column(Named with name a, alias b), Function(Named with name count(*))]`,
`select_names` does NOT return `["a"]` — the claim that it returns each
column's base name fails, because the code keeps the alias. -/
theorem select_names_base_name_cex : s3.select_names ≠ ["a"] := by decide

/-- C1 (amended): `select_names` returns, for each `Column` element of
`columns` (skipping `Star` and `Function` entirely), the full rendered text
of its `Named` value — the base name alone when no alias is present, or
`name AS alias` when aliased; on the columns list of scenario 3 it returns
exactly `["a AS b"]`. -/
theorem select_names_renders_each_column :
    (∀ s : Select, s.select_names = (columnPayloads s.columns).map Named.render) ∧
    s3.select_names = ["a AS b"] :=
  ⟨fun s => select_names_eq s, rfl⟩

/-- C2: for every `Select` with a non-empty column list, the rendered text
is `SELECT `, then `DISTINCT ` iff `distinct`, then `JSON ` iff `json`,
then the columns joined by `, ` in list order, then ` FROM ` plus the
table name, then the WHERE, ORDER BY, LIMIT and ALLOW FILTERING segments
each present iff their data is, in exactly that order, each optional
segment carrying its own leading space. -/
theorem select_render_clause_structure (s : Select) (_hne : s.columns ≠ []) :
    s.render = renderSpec s :=
  render_eq_renderSpec s

/-- C2 witness: scenario 2 has a non-empty column list and renders to
`SELECT DISTINCT a FROM t LIMIT 5`. -/
theorem select_render_clause_structure_witness :
    s2.columns ≠ [] ∧ s2.render = renderSpec s2 ∧
    renderSpec s2 = "SELECT DISTINCT a FROM t LIMIT 5" :=
  ⟨by decide, select_render_clause_structure s2 (by decide), by rfl⟩

/-- C3: the scenario-3 `Select` (table `t`, aliased column plus function,
single WHERE term `x = 1`, ALLOW FILTERING, everything else false or
absent) renders to exactly
`SELECT a AS b, count(*) FROM t WHERE x = 1 ALLOW FILTERING`. -/
theorem select_render_scenario3 :
    s3.render = "SELECT a AS b, count(*) FROM t WHERE x = 1 ALLOW FILTERING" := by rfl

/-- C4: `select_alias` returns, for each `Column` element (skipping `Star`
and `Function`), the effective name — the alias when present, else the
base name; on scenario 3's columns it returns exactly `["b"]`. -/
theorem select_alias_effective_names :
    (∀ s : Select, s.select_alias = (columnPayloads s.columns).map Named.alias_or_name) ∧
    s3.select_alias = [⟨"b"⟩] :=
  ⟨fun s => select_alias_eq s, rfl⟩

/-- C5: a `Named` value renders as `name AS alias` when the alias is
present and as `name` when it is absent; an alias equal to the base name
is not suppressed. -/
theorem named_render_alias_form :
    (∀ (i a : Identifier), Named.render ⟨i, some a⟩ = i.render ++ " AS " ++ a.render) ∧
    (∀ i : Identifier, Named.render ⟨i, none⟩ = i.render) ∧
    (∀ i : Identifier, Named.render ⟨i, some i⟩ = i.render ++ " AS " ++ i.render) :=
  ⟨fun _ _ => rfl, fun _ => rfl, fun _ => rfl⟩

/-- C6: `alias_or_name` returns the alias when present and the base name
when absent. -/
theorem alias_or_name_effective :
    (∀ (i a : Identifier), Named.alias_or_name ⟨i, some a⟩ = a) ∧
    (∀ i : Identifier, Named.alias_or_name ⟨i, none⟩ = i) :=
  ⟨fun _ _ => rfl, fun _ => rfl⟩

/-- C7: `select_names` and `select_alias` both have length equal to the
number of `Column` variants in `columns`, and both list their results in
the original relative order of those `Column` elements, with no
reordering or deduplication. -/
theorem select_accessors_length_and_order (s : Select) :
    s.select_names.length = s.columns.countP isColumn ∧
    s.select_alias.length = s.columns.countP isColumn ∧
    s.select_names = (columnPayloads s.columns).map Named.render ∧
    s.select_alias = (columnPayloads s.columns).map Named.alias_or_name := by
  refine ⟨?_, ?_, select_names_eq s, select_alias_eq s⟩
  · rw [select_names_eq s, List.length_map, columnPayloads_length]
  · rw [select_alias_eq s, List.length_map, columnPayloads_length]

/-- C8: rendering is deterministic — it is a function of the `Select`
value alone, so two runs on equal values yield identical text. -/
theorem select_render_deterministic (a b : Select) (h : a = b) :
    a.render = b.render := by rw [h]

/-- C8 witness: determinism applied to the scenario-3 value. -/
theorem select_render_deterministic_witness :
    s3 = s3 ∧ s3.render = s3.render :=
  ⟨rfl, select_render_deterministic s3 s3 rfl⟩

/-- C9: `Column` and `Function` elements render identically (both as the
`Named` rendering), and `Star` renders as the single token `*`. -/
theorem select_element_render_agreement (n : Named) :
    (SelectElement.Column n).render = (SelectElement.Function n).render ∧
    (SelectElement.Column n).render = n.render ∧
    SelectElement.Star.render = "*" :=
  ⟨rfl, rfl, rfl⟩

/-- C10: rendering any `Select` with an empty column list is total and
contains two consecutive spaces between the clause-head text and `FROM`:
the output is the clause head (which always ends in a space), immediately
followed by ` FROM `, the table name and the usual optional segments —
the empty column list contributes nothing between the two spaces. -/
theorem select_render_empty_columns (s : Select) (hc : s.columns = []) :
    s.render = clauseHead s ++ " FROM " ++ s.table_name.render ++
      whereSeg s ++ orderSeg s ++ limitSeg s ++ filteringSeg s ∧
    (clauseHead s).back = ' ' := by
  constructor
  · rw [render_eq_renderSpec]
    unfold renderSpec clauseHead
    rw [hc]
    simp [joinSep, String.append_empty]
  · unfold clauseHead distinctSeg jsonSeg
    cases hd : s.distinct <;> cases hj : s.json <;> decide

/-- C10 witness: the DISTINCT select with empty columns over table `t`
renders to `SELECT DISTINCT  FROM t`, double space included. -/
theorem select_render_empty_columns_witness :
    sDistinctEmpty.columns = [] ∧ sDistinctEmpty.render = "SELECT DISTINCT  FROM t" :=
  ⟨rfl, ((select_render_empty_columns sDistinctEmpty rfl).1).trans (by rfl)⟩

end CqlSelect
